import Mathlib

/-!
Verification of the glitchlab pipeline controller against its specification.

The Python source is shallowly embedded: pure helpers become Lean functions,
the stateful pieces (file system writes, the in-place plan mutation, the
run/finally discipline of the controller) become explicit state passing, and
every external effect (LLM call, git subprocess, human prompt, file IO of the
history writer) is an explicit parameter of the embedded function, so that
each code path of the source is a constructor case here.

File contents and commands are modelled as Lean `String`s; the byte-level
operations the source performs on them (`startswith`, `in`, `strip`, first
occurrence search and replace) are defined below over `String.data`
character lists so that all of them compute by `decide` and `rfl`.
-/

namespace Glitchlab

/-! ## String primitives

Python string operations used by the source, defined over character lists.
`strStartsWith s p` is Python `s.startswith(p)`, `strContains s p` is
Python `p in s`, `strStrip` is `str.strip()` (whitespace both ends). -/

def strStartsWith (s p : String) : Bool :=
  p.data.isPrefixOf s.data

def listContainsSub : List Char → List Char → Bool
  | _, [] => true
  | [], _ :: _ => false
  | c :: cs, p => p.isPrefixOf (c :: cs) || listContainsSub cs p

def strContains (s p : String) : Bool :=
  listContainsSub s.data p.data

def strStrip (s : String) : String :=
  ⟨((s.data.dropWhile Char.isWhitespace).reverse.dropWhile Char.isWhitespace).reverse⟩

/-- Python `str.split()` with no argument: split on runs of whitespace,
discarding empty pieces.  Used only by the specification-side reading of
the allow-list check (token sequences). -/
def strTokens (s : String) : List String :=
  ((s.data.splitOnP Char.isWhitespace).filter (fun w => !w.isEmpty)).map
    (fun w => ⟨w⟩)

/-- Replace the first occurrence of `pat` in `s` by `rep`; `none` when `pat`
does not occur.  Byte-exact first-occurrence substitution, the operation the
specification prescribes for one surgical block (spec 4.7 step 1). -/
def listReplaceFirst (pat rep : List Char) : List Char → Option (List Char)
  | [] => if pat = [] then some rep else none
  | c :: cs =>
    if pat.isPrefixOf (c :: cs) then
      some (rep ++ (c :: cs).drop pat.length)
    else
      (listReplaceFirst pat rep cs).map (fun t => c :: t)

def strReplaceFirst (s pat rep : String) : Option String :=
  (listReplaceFirst pat.data rep.data s.data).map (fun t => ⟨t⟩)

/-! ## Tool sandbox — `src/glitchlab/workspace/tools.py`

`ToolExecutor.execute` checks the blocked patterns (substring), then the
allow-list (`_is_allowed`: Python `command.strip().startswith(entry)` for
some entry), and only then spawns the process.  The spawn itself is an
external effect and is passed in as `spawn`; a raised `ToolViolationError`
is the `violation` constructor. -/

structure ToolResult where
  command : String
  stdout : String
  stderr : String
  returncode : Int
  allowed : Bool := true
deriving DecidableEq

def ToolResult.success (r : ToolResult) : Bool :=
  r.returncode == 0 && r.allowed

inductive ExecResult where
  | violation (msg : String)
  | ran (r : ToolResult)
deriving DecidableEq

/-- Embeds `ToolExecutor._is_allowed` (tools.py lines 126-132): the stripped command
must start (as a plain string) with some allow-list entry. -/
def is_allowed (allowed_tools : List String) (command : String) : Bool :=
  allowed_tools.any (fun a => strStartsWith (strStrip command) a)

/-- Embeds `ToolExecutor.execute` (tools.py lines 54-124), up to the spawn.
The execution log and logger calls carry no information the claims need. -/
def execute (allowed_tools blocked_patterns : List String)
    (spawn : String → ToolResult) (command : String) : ExecResult :=
  match blocked_patterns.find? (fun pat => strContains command pat) with
  | some pat => .violation ("Blocked pattern detected: " ++ pat)
  | none =>
    if is_allowed allowed_tools command then
      .ran (spawn command)
    else
      .violation ("Command not allowed: " ++ command)

/-- Specification-side reading of the allow check (spec 4.3 step 2): the
leading token sequence of the command must extend some allow-list entry token
sequence.  Under this reading entry `git` does not allow command
`gitx push`. -/
def tokenSeqAllowed (allowed_tools : List String) (command : String) : Bool :=
  allowed_tools.any (fun a => (strTokens a).isPrefixOf (strTokens command))

/-! ## Boundary enforcer — `src/glitchlab/governance/__init__.py` -/

/-- The violation list built by `BoundaryEnforcer.check` (lines 33-37): for
each file, each protected path that is a plain string prefix of it appends
the file once. -/
def violationsOf (protected_paths files : List String) : List String :=
  files.flatMap (fun f =>
    (protected_paths.filter (fun p => strStartsWith f p)).map (fun _ => f))

/-- Embeds `BoundaryEnforcer.check` (lines 26-46).  `Except.error` is the raised
`BoundaryViolation`. -/
def check (protected_paths files : List String) (allow_core : Bool) :
    Except String (List String) :=
  let violations := violationsOf protected_paths files
  if !violations.isEmpty && !allow_core then
    .error ("Core boundary violation! Files: " ++ String.intercalate ", " violations)
  else
    .ok violations

/-- Specification-side reading of protected-path matching (claim C5): a
whole-component path prefix, so `src/core` covers `src/core` itself and
everything under `src/core/`, but not `src/core_extra/x`. -/
def isComponentPathPfx (p f : String) : Bool :=
  p.data = f.data || (p.data ++ ['/']).isPrefixOf f.data

/-! ## Planner output schema — `src/glitchlab/agents/planner.py`

`PlannerAgent.parse_response` feeds the parsed JSON object to the pydantic
models `PlanStep` / `ExecutionPlan`; a `ValidationError` yields the
`parse_error` fallback.  The checks those models impose on an already
well-typed object are: `files` has `min_length=1` per step, and the
`Literal` domains of `action`, `risk_level` and `estimated_complexity`.
The embedding takes a well-typed candidate plan and decides exactly those
domain checks. -/

structure PlanStep where
  step_number : Int
  description : String
  files : List String
  action : String
deriving DecidableEq

structure ExecutionPlan where
  steps : List PlanStep
  files_likely_affected : List String
  requires_core_change : Bool
  risk_level : String
  risk_notes : String
  test_strategy : List String
  estimated_complexity : String
  dependencies_affected : Bool
  public_api_changed : Bool
  self_review_notes : String
deriving DecidableEq

def validPlanStep (s : PlanStep) : Bool :=
  decide (1 ≤ s.files.length) &&
    (s.action == "modify" || s.action == "create" || s.action == "delete")

def validExecutionPlan (p : ExecutionPlan) : Bool :=
  p.steps.all validPlanStep &&
    (p.risk_level == "low" || p.risk_level == "medium" || p.risk_level == "high") &&
    (p.estimated_complexity == "trivial" || p.estimated_complexity == "small" ||
      p.estimated_complexity == "medium" || p.estimated_complexity == "large")

/-- The number of distinct files touched by the `modify` steps of a plan:
the quantity bounded by the "at most two files modified per plan" policy of
claim C7. -/
def modifiedFilesCount (p : ExecutionPlan) : Nat :=
  (((p.steps.filter (fun s => s.action == "modify")).flatMap PlanStep.files).eraseDups).length

/-! ## Change applicator — `src/glitchlab/controller.py`, `apply_changes`

A change dict carries optional `content`, `patch` and `surgical_blocks`
bodies.  Python truthiness of `change.get(...)` on a string field is
`truthyStr`: absent and empty both count as false.  The file system is an
association list from path to content; `git apply` is an external effect
passed in as `gitApply` (returning the patched file system on success). -/

abbrev FileSys := List (String × String)

def FileSys.read (fs : FileSys) (path : String) : Option String :=
  (fs.find? (fun e => e.1 == path)).map Prod.snd

def FileSys.write (fs : FileSys) (path content : String) : FileSys :=
  if fs.any (fun e => e.1 == path) then
    fs.map (fun e => if e.1 == path then (path, content) else e)
  else
    fs ++ [(path, content)]

def FileSys.erase (fs : FileSys) (path : String) : FileSys :=
  fs.filter (fun e => e.1 != path)

structure FileChange where
  file : String
  action : String := "modify"
  content : Option String := none
  patch : Option String := none
  surgical_blocks : List (String × String) := []
  description : String := ""
deriving DecidableEq

def truthyStr : Option String → Bool
  | none => false
  | some s => !s.isEmpty

/-- Embeds `apply_changes` for a single change (controller.py lines 160-195).
`create` writes `content` (defaulting to the empty string), `delete` unlinks
when the file exists, `modify` prefers a truthy `patch` (falling back to a
truthy `content` when `git apply` fails), then a truthy `content`, else
logs a skip.  No branch reads `surgical_blocks`. -/
def applyOneChange (gitApply : String → FileSys → Option FileSys)
    (fs : FileSys) (c : FileChange) : FileSys × List String :=
  if c.action == "create" then
    (fs.write c.file (c.content.getD ""), ["CREATE " ++ c.file])
  else if c.action == "delete" then
    match fs.read c.file with
    | some _ => (fs.erase c.file, ["DELETE " ++ c.file])
    | none => (fs, [])
  else if c.action == "modify" then
    if truthyStr c.patch then
      match gitApply (c.patch.getD "") fs with
      | some fs2 => (fs2, ["PATCH " ++ c.file])
      | none =>
        if truthyStr c.content then
          (fs.write c.file (c.content.getD ""),
            ["MODIFY " ++ c.file ++ " (patch failed, used full content)"])
        else
          (fs, ["FAIL " ++ c.file ++ " (patch failed, no fallback)"])
    else if truthyStr c.content then
      (fs.write c.file (c.content.getD ""), ["MODIFY " ++ c.file])
    else
      (fs, ["SKIP " ++ c.file ++ " (no content or patch provided)"])
  else
    (fs, [])

/-- Embeds `apply_changes` (controller.py lines 150-197): fold the changes in order,
collecting the applied-log lines. -/
def apply_changes (gitApply : String → FileSys → Option FileSys)
    (fs : FileSys) (changes : List FileChange) : FileSys × List String :=
  changes.foldl
    (fun acc c =>
      let step := applyOneChange gitApply acc.1 c
      (step.1, acc.2 ++ step.2))
    (fs, [])

/-- Specification-side surgical application (spec 4.7, `modify` step 1):
apply each block in order, replacing the first exact occurrence of its
search string; the whole change fails (`none`) when any search string does
not occur in the current content. -/
def applySurgicalSpec (blocks : List (String × String)) (content : String) :
    Option String :=
  blocks.foldl
    (fun acc b => acc.bind (fun cur => strReplaceFirst cur b.1 b.2))
    (some content)

/-! ## Fix loop — `src/glitchlab/controller.py`, `Controller._run_fix_loop`

The loop `for attempt in range(1, max_attempts + 1)` runs the test command,
returns success when it passes, breaks without a debugger call when
`attempt >= max_attempts`, and otherwise consults the debugger, stopping
when it does not ask for a retry.  `test attempt` is the success of test
run number `attempt`, `retry attempt` the `should_retry` of the debugger on that
attempt; the returned counters are the number of test executions and of
debugger invocations.  The fuel argument of the helper is
`max_attempts - attempt + 1`, the number of loop iterations left. -/

def fixLoopGo (test retry : Nat → Bool) :
    Nat → Nat → Nat → Nat → Bool × Nat × Nat
  | 0, _, testRuns, dbgCalls => (false, testRuns, dbgCalls)
  | fuel + 1, attempt, testRuns, dbgCalls =>
    if test attempt then
      (true, testRuns + 1, dbgCalls)
    else if fuel = 0 then
      (false, testRuns + 1, dbgCalls)
    else if retry attempt then
      fixLoopGo test retry fuel (attempt + 1) (testRuns + 1) (dbgCalls + 1)
    else
      (false, testRuns + 1, dbgCalls + 1)

def run_fix_loop (max_fix_attempts : Nat) (test retry : Nat → Bool) :
    Bool × Nat × Nat :=
  fixLoopGo test retry max_fix_attempts 1 0 0

/-! ## Plan-level boundary check — `BoundaryEnforcer.check_plan`

`check_plan` (governance lines 48-53) fetches `plan["files_likely_affected"]`
by reference and extends it in place with the files of every step before
calling `check` on `list(set(files))`.  The embedding passes the plan state
explicitly and returns the mutated plan alongside the check result; the
extension happens before `check` can raise, so the mutated plan is the
post-state of both outcomes.  Python `set` iteration order is unspecified
and is modelled as first-occurrence `eraseDups`; no theorem below depends
on that order. -/

def check_plan (protected_paths : List String) (plan : ExecutionPlan)
    (allow_core : Bool) : Except String (List String) × ExecutionPlan :=
  let files := plan.files_likely_affected ++ plan.steps.flatMap PlanStep.files
  (check protected_paths files.eraseDups allow_core,
    { plan with files_likely_affected := files })

/-! ## Event log and history — `src/glitchlab/history.py`

`Controller._log_event` appends dicts of shape `{type, timestamp, task_id,
data}`; `TaskHistory._summarize_events` reads only `type` and the keys
`steps`, `risk`, `attempt`, `verdict`, `bump` of `data`.  Timestamps and
task ids of events carry no information the claims need.  A summary key
that Python sets to `None` is collapsed with an absent key into `none`
(nothing below distinguishes them). -/

structure EventData where
  steps : Option Nat := none
  risk : Option String := none
  attempt : Option Nat := none
  verdict : Option String := none
  bump : Option String := none
deriving DecidableEq

structure Event where
  type : String
  data : EventData := {}
deriving DecidableEq

structure EventsSummary where
  plan_steps : Option Nat := none
  plan_risk : Option String := none
  tests_passed_on_attempt : Option Nat := none
  security_verdict : Option String := none
  version_bump : Option String := none
  fix_attempts : Nat := 0
deriving DecidableEq

/-- One step of `TaskHistory._summarize_events` (history.py lines 159-182). -/
def summarizeStep (s : EventsSummary) (e : Event) : EventsSummary :=
  if e.type == "plan_created" then
    { s with plan_steps := some (e.data.steps.getD 0), plan_risk := e.data.risk }
  else if e.type == "tests_failed" then
    { s with fix_attempts := s.fix_attempts + 1 }
  else if e.type == "tests_passed" then
    { s with tests_passed_on_attempt := some (e.data.attempt.getD 1) }
  else if e.type == "security_review" then
    { s with security_verdict := e.data.verdict }
  else if e.type == "release_assessment" then
    { s with version_bump := e.data.bump }
  else s

def summarize_events (events : List Event) : EventsSummary :=
  events.foldl summarizeStep {}

/-- The router budget snapshot `Router.budget.summary()` returns:
Modelled from the spec: `src/glitchlab/router.py` is not in the sources;
spec 3 (BudgetState) and 6 give its summary the fields `total_tokens`,
`estimated_cost` and `call_count`.  The cost is kept in fixed-point units
(a `Nat`): no claim performs arithmetic on it. -/
structure BudgetSummary where
  total_tokens : Nat
  estimated_cost : Nat
  call_count : Nat
deriving DecidableEq

/-- The `result` dict `Controller.run` builds: initialized to
`{task_id, status := "pending", events := []}` (controller.py lines
312-316); the remaining keys start absent (`none`). -/
structure RunResult where
  task_id : String
  status : String
  pr_url : Option String := none
  branch : Option String := none
  error : Option String := none
  events : List Event := []
  budget : Option BudgetSummary := none
deriving DecidableEq

/-- The history line `TaskHistory.record` builds (history.py lines 45-54);
`budget := none` models the empty-dict default of
`result.get("budget", {})`.  The timestamp is not modelled. -/
structure HistoryEntry where
  task_id : String
  status : String
  pr_url : Option String := none
  branch : Option String := none
  error : Option String := none
  budget : Option BudgetSummary := none
  events_summary : EventsSummary := {}
deriving DecidableEq

def mkHistoryEntry (r : RunResult) : HistoryEntry :=
  { task_id := r.task_id
    status := r.status
    pr_url := r.pr_url
    branch := r.branch
    error := r.error
    budget := r.budget
    events_summary := summarize_events r.events }

/-- Embeds `TaskHistory.record` (history.py lines 36-61).  The
`self.log_dir.mkdir(...)` call sits before the `try`, so its failure
propagates (`Except.error`); the file write sits inside `try/except`, so
its failure only drops persistence (the `Bool` of the result). -/
def record (mkdirResult writeResult : Except String Unit) (r : RunResult) :
    Except String (HistoryEntry × Bool) :=
  match mkdirResult with
  | .error e => .error e
  | .ok _ =>
    let entry := mkHistoryEntry r
    match writeResult with
    | .ok _ => .ok (entry, true)
    | .error _ => .ok (entry, false)

/-! ## The controller run — `Controller.run` (controller.py lines 309-492)

The run is a straight-line pipeline inside `try/except/finally`.  Every
external effect is a parameter: each stage that can raise is an
`Except RunExn` field of `RunEnv` (`budget` is `BudgetExceededError`,
`keyboard` is `KeyboardInterrupt`, `err` any other exception), the human
prompt is `RunParams.answers`, the push-and-PR block (whose `except
Exception` is local) is a three-way outcome, and the two history-writer
effects are the `Except String Unit` fields.  The `Workspace` constructor
is plain attribute assignment and is modelled as infallible, so
`self._workspace` is set for the whole of the `try` block and the `finally`
block always reaches both `cleanup()` and `record()`.

The accumulated event log does not influence control flow; its value at the
end of the `try` block is the oracle `RunEnv.eventLog`, and
`RunEnv.budgetSummary` is the router budget snapshot
`self.router.budget.summary()` at that same point. -/

inductive RunExn where
  | budget (msg : String)
  | keyboard
  | err (msg : String)
deriving DecidableEq

inductive PushPROutcome where
  | created (url : String)
  | failedLocal (msg : String)
  | raisedKeyboard
deriving DecidableEq

structure PlannerOut where
  plan : ExecutionPlan
  parse_error : Bool
deriving DecidableEq

structure ImplementerOut where
  parse_error : Bool
  commit_message : Option String := none
deriving DecidableEq

structure SecurityOut where
  verdict : Option String := none
deriving DecidableEq

structure RunParams where
  task_id : String
  branch_name : String
  allow_core : Bool := false
  auto_approve : Bool := false
  has_test_command : Bool := false
  pause_after_plan : Bool := false
  pause_before_pr : Bool := false
  protected_paths : List String := []
  answers : String → Bool

structure RunEnv where
  createE : Except RunExn Unit
  plannerE : Except RunExn PlannerOut
  implE : Except RunExn ImplementerOut
  applyE : Except RunExn Unit
  fixLoopE : Except RunExn Bool
  securityE : Except RunExn SecurityOut
  releaseE : Except RunExn Unit
  archivistE : Except RunExn Unit
  commitE : Except RunExn Unit
  diffStatE : Except RunExn Unit
  pushPrE : PushPROutcome
  eventLog : List Event
  budgetSummary : BudgetSummary
  mkdirE : Except String Unit
  writeE : Except String Unit

/-- Embeds `Controller._confirm` (controller.py lines 888-891): `auto_approve`
short-circuits to approval, otherwise the human answers. -/
def confirm (p : RunParams) (prompt : String) : Bool :=
  p.auto_approve || p.answers prompt

/-- Model bookkeeping: the file list `_run_implementer` hands to
`gather_file_context` (controller.py lines 548-551), when that stage was
reached. -/
structure RunTrace where
  implFiles : Option (List String) := none
deriving DecidableEq

/-- Commit, optional pause-before-PR gate, then push and PR
(controller.py lines 441-469).  The `except Exception` around push/PR is
local: failure degrades to `committed` with the branch name.  Both outcomes
then run the budget summary print and set `result["events"]` and
`result["budget"]` — the only writes of those two keys in `run`. -/
def runStagePush (p : RunParams) (env : RunEnv) (r : RunResult)
    (tr : RunTrace) : Except (RunExn × RunResult) RunResult × RunTrace :=
  match env.pushPrE with
  | .created url =>
    let r2 := { r with pr_url := some url, status := "pr_created", events := env.eventLog, budget := some env.budgetSummary }
    (.ok r2, tr)
  | .failedLocal _ =>
    let r2 := { r with status := "committed", branch := some p.branch_name, events := env.eventLog, budget := some env.budgetSummary }
    (.ok r2, tr)
  | .raisedKeyboard => (.error (.keyboard, r), tr)

def runStageCommitPr (p : RunParams) (env : RunEnv) (r : RunResult)
    (tr : RunTrace) : Except (RunExn × RunResult) RunResult × RunTrace :=
  match env.commitE with
  | .error ex => (.error (ex, r), tr)
  | .ok _ =>
    if p.pause_before_pr then
      match env.diffStatE with
      | .error ex => (.error (ex, r), tr)
      | .ok _ =>
        if !confirm p "Create PR?" then
          (.ok { r with status := "pr_cancelled" }, tr)
        else runStagePush p env r tr
    else runStagePush p env r tr

/-- Release assessment and archivist (controller.py lines 427-439). -/
def runStageReleaseArchive (p : RunParams) (env : RunEnv) (r : RunResult)
    (tr : RunTrace) : Except (RunExn × RunResult) RunResult × RunTrace :=
  match env.releaseE with
  | .error ex => (.error (ex, r), tr)
  | .ok _ =>
    match env.archivistE with
    | .error ex => (.error (ex, r), tr)
    | .ok _ => runStageCommitPr p env r tr

/-- Security review gate (controller.py lines 418-425): on verdict `block`,
a declined override terminates as `security_blocked`. -/
def runStageSecurity (p : RunParams) (env : RunEnv) (r : RunResult)
    (tr : RunTrace) : Except (RunExn × RunResult) RunResult × RunTrace :=
  match env.securityE with
  | .error ex => (.error (ex, r), tr)
  | .ok so =>
    if so.verdict == some "block" && !confirm p "Override security block?" then
      (.ok { r with status := "security_blocked" }, tr)
    else runStageReleaseArchive p env r tr

/-- Test-and-fix stage (controller.py lines 409-416): only when a test
command is configured; on loop failure `result["status"]` is set to
`tests_failed` and a declined continue-gate returns it, an approved gate
carries that result (status included) onward. -/
def runStageTests (p : RunParams) (env : RunEnv) (r : RunResult)
    (tr : RunTrace) : Except (RunExn × RunResult) RunResult × RunTrace :=
  if p.has_test_command then
    match env.fixLoopE with
    | .error ex => (.error (ex, r), tr)
    | .ok true => runStageSecurity p env r tr
    | .ok false =>
      let r2 := { r with status := "tests_failed" }
      if !confirm p "Continue to PR anyway?" then (.ok r2, tr)
      else runStageSecurity p env r2 tr
  else runStageSecurity p env r tr

/-- The `try` block of `Controller.run` (controller.py lines 327-469):
workspace creation through prelude, indexing and failure context
(`createE`), the planner with its parse-error check and human gate, the
boundary check (whose raised `BoundaryViolation` is caught in `run`
itself), the implementer with its parse-error check, the change
application, then the remaining stages.  `Except.error` carries the
exception together with the `result` dict as already populated at the
raise point. -/
def runBody (p : RunParams) (env : RunEnv) :
    Except (RunExn × RunResult) RunResult × RunTrace :=
  let r0 : RunResult := { task_id := p.task_id, status := "pending" }
  match env.createE with
  | .error ex => (.error (ex, r0), {})
  | .ok _ =>
    match env.plannerE with
    | .error ex => (.error (ex, r0), {})
    | .ok po =>
      if po.parse_error ||
          (p.pause_after_plan && !p.auto_approve && !confirm p "Approve plan?") then
        (.ok { r0 with status := "plan_failed" }, {})
      else
        match check_plan p.protected_paths po.plan p.allow_core with
        | (.error _, _) => (.ok { r0 with status := "boundary_violation" }, {})
        | (.ok _, plan2) =>
          let tr : RunTrace := { implFiles := some plan2.files_likely_affected }
          match env.implE with
          | .error ex => (.error (ex, r0), tr)
          | .ok io =>
            if io.parse_error then
              (.ok { r0 with status := "implementation_failed" }, tr)
            else
              match env.applyE with
              | .error ex => (.error (ex, r0), tr)
              | .ok _ => runStageTests p env r0 tr

/-- The outcome of one call to `Controller.run`: the returned result (or
the exception escaping the `finally` block when the history-writer
`mkdir` raises), what the history writer recorded and whether the line was
persisted, and how often cleanup and record ran. -/
structure RunOutcome where
  runResult : Except String RunResult
  recorded : Option HistoryEntry
  persisted : Bool
  cleanupCalled : Bool
  recordCalls : Nat
  trace : RunTrace

/-- The `finally` block (controller.py lines 482-490): cleanup first (its
own exceptions swallowed by `except Exception: pass`), then exactly one
`record` call. -/
def finalizeRun (env : RunEnv) (r : RunResult) (tr : RunTrace) : RunOutcome :=
  match record env.mkdirE env.writeE r with
  | .ok (e, pers) =>
    { runResult := .ok r, recorded := some e, persisted := pers,
      cleanupCalled := true, recordCalls := 1, trace := tr }
  | .error m =>
    { runResult := .error m, recorded := none, persisted := false,
      cleanupCalled := true, recordCalls := 1, trace := tr }

/-- Embeds `Controller.run` (controller.py lines 309-492): the `try` body, the
three `except` clauses (each overwriting only `status`, the generic one
also `error`), and the `finally` block. -/
def Controller_run (p : RunParams) (env : RunEnv) : RunOutcome :=
  match runBody p env with
  | (.ok r, tr) => finalizeRun env r tr
  | (.error (.budget _, r), tr) =>
    finalizeRun env { r with status := "budget_exceeded" } tr
  | (.error (.keyboard, r), tr) =>
    finalizeRun env { r with status := "interrupted" } tr
  | (.error (.err m, r), tr) =>
    finalizeRun env { r with status := "error", error := some m } tr

/-- Per `parallel.py` line 48: every worker controller is constructed with
`auto_approve=True`. -/
def parallelWorkerAutoApprove : Bool := true

/-! ## Concrete instances used by the closed theorems below -/

/-- A schema-valid plan with no steps, used by the concrete run scenarios. -/
def trivialPlan : ExecutionPlan :=
  { steps := [], files_likely_affected := [], requires_core_change := false,
    risk_level := "low", risk_notes := "", test_strategy := [],
    estimated_complexity := "trivial", dependencies_affected := false,
    public_api_changed := false, self_review_notes := "" }

/-- Parameters of the budget-exhaustion scenario (spec 8, scenario 6):
auto-approved run, no test command, no pauses. -/
def budgetRunParams : RunParams :=
  { task_id := "budget-task", branch_name := "glitchlab/budget-task",
    auto_approve := true, answers := fun _ => false }

/-- Environment of the budget-exhaustion scenario: the planner succeeds
(and the event log holds its `plan_created` event), the implementer call
raises `BudgetExceededError`, and the router budget snapshot at that point
holds the pre-failure token count 5200 over 2 calls. -/
def budgetRunEnv : RunEnv :=
  { createE := .ok (), plannerE := .ok ⟨trivialPlan, false⟩,
    implE := .error (.budget "token budget would be exceeded"),
    applyE := .ok (), fixLoopE := .ok true, securityE := .ok {},
    releaseE := .ok (), archivistE := .ok (), commitE := .ok (),
    diffStatE := .ok (), pushPrE := .created "https://example.test/pr/1",
    eventLog := [⟨"plan_created", { steps := some 1, risk := some "low" }⟩],
    budgetSummary := { total_tokens := 5200, estimated_cost := 31, call_count := 2 },
    mkdirE := .ok (), writeE := .ok () }

/-- A `modify` change carrying only a surgical block whose search string
does occur in the target file. -/
def surgicalOnlyChange : FileChange :=
  { file := "a.txt", action := "modify", surgical_blocks := [("a", "Z")] }

/-- A plan whose single `modify` step touches three distinct files; every
enumerated field is inside its pydantic `Literal` domain and the step has a
non-empty `files` list. -/
def threeFilePlan : ExecutionPlan :=
  { steps := [{ step_number := 1, description := "touch three files",
                files := ["a.py", "b.py", "c.py"], action := "modify" }],
    files_likely_affected := ["a.py", "b.py", "c.py"],
    requires_core_change := false, risk_level := "low", risk_notes := "",
    test_strategy := ["pytest"], estimated_complexity := "small",
    dependencies_affected := false, public_api_changed := false,
    self_review_notes := "" }

/-- A minimal completed-run result dict, input of the history-writer
counterexample. -/
def plainRunResult : RunResult :=
  { task_id := "history-task", status := "error" }

def exceptIsOkB {ε α : Type} : Except ε α → Bool
  | .ok _ => true
  | .error _ => false

/-- Parameters of the auto-approved (parallel-worker) scenario. -/
def workerRunParams : RunParams :=
  { task_id := "worker-task", branch_name := "glitchlab/worker-task",
    auto_approve := parallelWorkerAutoApprove, has_test_command := true,
    pause_after_plan := true, pause_before_pr := true,
    answers := fun _ => false }

/-- Environment of the auto-approved scenario: the fix loop fails and the
security verdict is `block`, so every human gate fires — and every one of
them is auto-approved. -/
def workerRunEnv : RunEnv :=
  { createE := .ok (), plannerE := .ok ⟨trivialPlan, false⟩,
    implE := .ok { parse_error := false }, applyE := .ok (),
    fixLoopE := .ok false, securityE := .ok { verdict := some "block" },
    releaseE := .ok (), archivistE := .ok (), commitE := .ok (),
    diffStatE := .ok (), pushPrE := .created "https://example.test/pr/2",
    eventLog := [], budgetSummary := { total_tokens := 900, estimated_cost := 4, call_count := 6 },
    mkdirE := .ok (), writeE := .ok () }

/-- The result the auto-approved scenario returns. -/
def workerRunExpected : RunResult :=
  { task_id := "worker-task", status := "pr_created",
    pr_url := some "https://example.test/pr/2",
    budget := some { total_tokens := 900, estimated_cost := 4, call_count := 6 } }

/-- A spawn oracle whose processes succeed and echo their command. -/
def spawnEcho : String → ToolResult :=
  fun c => { command := c, stdout := "", stderr := "", returncode := 0 }

/-! ## Helper lemmas -/

/-- Counter bound for the fix-loop helper: each remaining iteration adds at
most one test run and one debugger call. -/
theorem fixLoopGo_counter_bounds (test retry : Nat → Bool) :
    ∀ fuel attempt t d,
      (fixLoopGo test retry fuel attempt t d).2.1 ≤ t + fuel ∧
      (fixLoopGo test retry fuel attempt t d).2.2 ≤ d + fuel := by
  intro fuel
  induction fuel with
  | zero => intro attempt t d; simp [fixLoopGo]
  | succ n ih =>
    intro attempt t d
    simp only [fixLoopGo]
    by_cases h1 : test attempt
    · simp [h1]
    · simp [h1]
      by_cases h2 : n = 0
      · simp [h2]
      · simp [h2]
        by_cases h3 : retry attempt
        · simp [h3]
          have := ih (attempt + 1) (t + 1) (d + 1)
          omega
        · simp [h3]

/-- Membership in the violation list of `BoundaryEnforcer.check`. -/
theorem mem_violationsOf (protected_paths files : List String) (f : String) :
    f ∈ violationsOf protected_paths files ↔
      f ∈ files ∧ ∃ pp ∈ protected_paths, strStartsWith f pp = true := by
  unfold violationsOf
  simp only [List.mem_flatMap, List.mem_map, List.mem_filter]
  constructor
  · rintro ⟨a, ha, x, ⟨hx, hpre⟩, rfl⟩
    exact ⟨ha, x, hx, hpre⟩
  · rintro ⟨hf, pp, hpp, hpre⟩
    exact ⟨f, hf, pp, ⟨hpp, hpre⟩, rfl⟩

/-- The `finally` block bookkeeping: one record call, cleanup run, trace
passed through, regardless of the write outcomes. -/
theorem finalizeRun_bookkeeping (env : RunEnv) (r : RunResult) (tr : RunTrace) :
    (finalizeRun env r tr).recordCalls = 1 ∧
    (finalizeRun env r tr).cleanupCalled = true ∧
    (finalizeRun env r tr).trace = tr := by
  unfold finalizeRun
  rcases record env.mkdirE env.writeE r with m | ⟨e, pers⟩ <;> simp

/-- When the `finally` block lets a result through, it is the result the
`try/except` part produced. -/
theorem finalizeRun_runResult_ok (env : RunEnv) (r : RunResult) (tr : RunTrace)
    (r2 : RunResult) (h : (finalizeRun env r tr).runResult = .ok r2) : r2 = r := by
  unfold finalizeRun record at h
  rcases hmk : env.mkdirE with m | u <;> rw [hmk] at h
  · simp at h
  · rcases hw : env.writeE with m2 | u2 <;> rw [hw] at h <;> simp_all

/-- When the history directory creation succeeds, the `finally` block
returns the run result unchanged. -/
theorem finalizeRun_ok_of_mkdir_ok (env : RunEnv) (r : RunResult) (tr : RunTrace)
    (h : env.mkdirE = .ok ()) : (finalizeRun env r tr).runResult = .ok r := by
  unfold finalizeRun record
  rw [h]
  cases env.writeE <;> simp

theorem finalizeRun_trace (env : RunEnv) (r : RunResult) (tr : RunTrace) :
    (finalizeRun env r tr).trace = tr :=
  (finalizeRun_bookkeeping env r tr).2.2

theorem runStagePush_trace (p : RunParams) (env : RunEnv) (r : RunResult)
    (tr : RunTrace) : (runStagePush p env r tr).2 = tr := by
  unfold runStagePush
  cases env.pushPrE <;> rfl

theorem runStageCommitPr_trace (p : RunParams) (env : RunEnv) (r : RunResult)
    (tr : RunTrace) : (runStageCommitPr p env r tr).2 = tr := by
  unfold runStageCommitPr
  cases env.commitE with
  | error ex => rfl
  | ok u =>
    by_cases hpp : p.pause_before_pr <;> simp only [hpp, if_true, if_false]
    · cases env.diffStatE with
      | error ex => rfl
      | ok u2 =>
        by_cases hcf : confirm p "Create PR?" <;>
          simp [hcf, runStagePush_trace]
    · exact runStagePush_trace p env r tr

theorem runStageReleaseArchive_trace (p : RunParams) (env : RunEnv)
    (r : RunResult) (tr : RunTrace) :
    (runStageReleaseArchive p env r tr).2 = tr := by
  unfold runStageReleaseArchive
  cases env.releaseE with
  | error ex => rfl
  | ok u =>
    cases env.archivistE with
    | error ex => rfl
    | ok u2 => exact runStageCommitPr_trace p env r tr

theorem runStageSecurity_trace (p : RunParams) (env : RunEnv) (r : RunResult)
    (tr : RunTrace) : (runStageSecurity p env r tr).2 = tr := by
  unfold runStageSecurity
  cases env.securityE with
  | error ex => rfl
  | ok so =>
    by_cases hb : (so.verdict == some "block" && !confirm p "Override security block?") = true <;>
      simp [hb, runStageReleaseArchive_trace]

theorem runStageTests_trace (p : RunParams) (env : RunEnv) (r : RunResult)
    (tr : RunTrace) : (runStageTests p env r tr).2 = tr := by
  unfold runStageTests
  by_cases ht : p.has_test_command <;> simp only [ht, if_true, if_false]
  · cases env.fixLoopE with
    | error ex => rfl
    | ok b =>
      cases b
      · by_cases hcf : confirm p "Continue to PR anyway?" <;>
          simp [hcf, runStageSecurity_trace]
      · exact runStageSecurity_trace p env r tr
  · exact runStageSecurity_trace p env r tr

theorem runStagePush_ok_status (p : RunParams) (env : RunEnv) (r : RunResult)
    (tr : RunTrace) (r2 : RunResult) (tr2 : RunTrace)
    (h : runStagePush p env r tr = (.ok r2, tr2)) :
    r2.status = "pr_created" ∨ r2.status = "committed" := by
  unfold runStagePush at h
  rcases hp : env.pushPrE with url | m | _ <;> rw [hp] at h <;>
    simp only [Prod.mk.injEq, Except.ok.injEq] at h
  · obtain ⟨h1, -⟩ := h
    subst h1
    left
    rfl
  · obtain ⟨h1, -⟩ := h
    subst h1
    right
    rfl
  · simp at h

theorem runStageCommitPr_ok_status (p : RunParams) (env : RunEnv)
    (r : RunResult) (tr : RunTrace) (r2 : RunResult) (tr2 : RunTrace)
    (hauto : p.auto_approve = true)
    (h : runStageCommitPr p env r tr = (.ok r2, tr2)) :
    r2.status = "pr_created" ∨ r2.status = "committed" := by
  unfold runStageCommitPr at h
  rcases hc : env.commitE with m | u <;> rw [hc] at h
  · simp at h
  · by_cases hpp : p.pause_before_pr <;> simp only [hpp, if_true, if_false] at h
    · rcases hd : env.diffStatE with m2 | u2 <;> rw [hd] at h
      · simp at h
      · simp only [confirm, hauto, Bool.true_or, Bool.not_true,
          Bool.false_eq_true, if_false] at h
        exact runStagePush_ok_status p env r tr r2 tr2 h
    · exact runStagePush_ok_status p env r tr r2 tr2 h

theorem runStageReleaseArchive_ok_status (p : RunParams) (env : RunEnv)
    (r : RunResult) (tr : RunTrace) (r2 : RunResult) (tr2 : RunTrace)
    (hauto : p.auto_approve = true)
    (h : runStageReleaseArchive p env r tr = (.ok r2, tr2)) :
    r2.status = "pr_created" ∨ r2.status = "committed" := by
  unfold runStageReleaseArchive at h
  rcases hr : env.releaseE with m | u <;> rw [hr] at h
  · simp at h
  · rcases ha : env.archivistE with m2 | u2 <;> rw [ha] at h
    · simp at h
    · exact runStageCommitPr_ok_status p env r tr r2 tr2 hauto h

theorem runStageSecurity_ok_status (p : RunParams) (env : RunEnv)
    (r : RunResult) (tr : RunTrace) (r2 : RunResult) (tr2 : RunTrace)
    (hauto : p.auto_approve = true)
    (h : runStageSecurity p env r tr = (.ok r2, tr2)) :
    r2.status = "pr_created" ∨ r2.status = "committed" := by
  unfold runStageSecurity at h
  rcases hs : env.securityE with m | so <;> rw [hs] at h
  · simp at h
  · simp only [confirm, hauto, Bool.true_or, Bool.not_true, Bool.and_false,
      Bool.false_eq_true, if_false] at h
    exact runStageReleaseArchive_ok_status p env r tr r2 tr2 hauto h

theorem runStageTests_ok_status (p : RunParams) (env : RunEnv)
    (r : RunResult) (tr : RunTrace) (r2 : RunResult) (tr2 : RunTrace)
    (hauto : p.auto_approve = true)
    (h : runStageTests p env r tr = (.ok r2, tr2)) :
    r2.status = "pr_created" ∨ r2.status = "committed" := by
  unfold runStageTests at h
  by_cases ht : p.has_test_command <;> simp only [ht, if_true, if_false] at h
  · rcases hf : env.fixLoopE with m | b <;> rw [hf] at h
    · simp at h
    · cases b
      · simp only [confirm, hauto, Bool.true_or, Bool.not_true,
          Bool.false_eq_true, if_false] at h
        exact runStageSecurity_ok_status p env _ tr r2 tr2 hauto h
      · exact runStageSecurity_ok_status p env r tr r2 tr2 hauto h
  · exact runStageSecurity_ok_status p env r tr r2 tr2 hauto h

/-- Every result the `try` block returns under auto-approval carries one of
the five statuses that do not pass through a declined human gate. -/
theorem runBody_ok_status (p : RunParams) (env : RunEnv) (r : RunResult)
    (tr : RunTrace) (hauto : p.auto_approve = true)
    (h : runBody p env = (.ok r, tr)) :
    r.status = "plan_failed" ∨ r.status = "boundary_violation" ∨
    r.status = "implementation_failed" ∨ r.status = "pr_created" ∨
    r.status = "committed" := by
  unfold runBody at h
  rcases hc : env.createE with m | u <;> rw [hc] at h
  · simp at h
  · rcases hpl : env.plannerE with m | po <;> rw [hpl] at h
    · simp at h
    · dsimp only at h
      by_cases hpe :
        (po.parse_error ||
          (p.pause_after_plan && !p.auto_approve && !confirm p "Approve plan?")) = true
      · rw [if_pos hpe] at h
        simp only [Prod.mk.injEq, Except.ok.injEq] at h
        obtain ⟨h1, -⟩ := h
        subst h1
        left
        rfl
      · rw [if_neg hpe] at h
        rcases hcp : check_plan p.protected_paths po.plan p.allow_core with ⟨cr, plan2⟩
        rw [hcp] at h
        rcases cr with m | viol <;> dsimp only at h
        · simp only [Prod.mk.injEq, Except.ok.injEq] at h
          obtain ⟨h1, -⟩ := h
          subst h1
          right; left
          rfl
        · rcases him : env.implE with m | io <;> rw [him] at h <;> dsimp only at h
          · simp at h
          · by_cases hio : io.parse_error = true
            · rw [if_pos hio] at h
              simp only [Prod.mk.injEq, Except.ok.injEq] at h
              obtain ⟨h1, -⟩ := h
              subst h1
              right; right; left
              rfl
            · rw [if_neg hio] at h
              rcases hap : env.applyE with m | u2 <;> rw [hap] at h <;> dsimp only at h
              · simp at h
              · have := runStageTests_ok_status p env _ _ r tr hauto h
                tauto

theorem Controller_run_trace (p : RunParams) (env : RunEnv) :
    (Controller_run p env).trace = (runBody p env).2 := by
  unfold Controller_run
  rcases hb : runBody p env with ⟨res, tr⟩
  rcases res with ⟨ex, r1⟩ | r1
  · cases ex <;> exact finalizeRun_trace env _ tr
  · exact finalizeRun_trace env r1 tr

/-- The implementer context file list, when that stage is reached, is
exactly the `files_likely_affected` of the boundary-mutated plan. -/
theorem runBody_implFiles (p : RunParams) (env : RunEnv) (po : PlannerOut)
    (l : List String) (hpo : env.plannerE = .ok po)
    (h : (runBody p env).2.implFiles = some l) :
    l = (check_plan p.protected_paths po.plan p.allow_core).2.files_likely_affected := by
  unfold runBody at h
  rcases hc : env.createE with m | u <;> rw [hc] at h
  · simp at h
  · rw [hpo] at h
    dsimp only at h
    by_cases hpe :
      (po.parse_error ||
        (p.pause_after_plan && !p.auto_approve && !confirm p "Approve plan?")) = true
    · rw [if_pos hpe] at h
      simp at h
    · rw [if_neg hpe] at h
      rcases hcp : check_plan p.protected_paths po.plan p.allow_core with ⟨cr, plan2⟩
      rw [hcp] at h
      rcases cr with m | viol <;> dsimp only at h
      · simp at h
      · rcases him : env.implE with m | io <;> rw [him] at h <;> dsimp only at h
        · simp at h
          simp [← h]
        · by_cases hio : io.parse_error = true
          · rw [if_pos hio] at h
            simp at h
            simp [← h]
          · rw [if_neg hio] at h
            rcases hap : env.applyE with m | u2 <;> rw [hap] at h <;> dsimp only at h
            · simp at h
              simp [← h]
            · rw [runStageTests_trace] at h
              simp at h
              simp [← h]

/-! ## Claim theorems -/

/-- Claim C1 (code bug): the controller only copies the router budget
snapshot and the event log into `result` on the committed and PR paths
(controller.py lines 468-469), so a run that terminates `budget_exceeded`
records a history entry with an empty budget (`none` models the empty
dict) and an events summary derived from the empty list — not the
pre-failure token count (5200 here) and not the summary of the events the
run actually logged.  This contradicts spec 7 and spec 8 scenario 6. -/
theorem budget_snapshot_dropped_on_budget_exceeded :
    (Controller_run budgetRunParams budgetRunEnv).recorded =
      some { task_id := "budget-task", status := "budget_exceeded",
             budget := none, events_summary := {} } ∧
    (Controller_run budgetRunParams budgetRunEnv).runResult.toOption =
      some { task_id := "budget-task", status := "budget_exceeded" } ∧
    budgetRunEnv.budgetSummary.total_tokens = 5200 ∧
    summarize_events budgetRunEnv.eventLog ≠ ({} : EventsSummary) := by
  decide

/-- Claim C2 (counterexample): a `modify` change whose only body is a
surgical block is logged `SKIP` and leaves the file unchanged, although
the specification-side surgical application succeeds and would rewrite
`abc` to `Zbc`. -/
theorem surgical_blocks_ignored_counterexample :
    apply_changes (fun _ _ => none) [("a.txt", "abc")] [surgicalOnlyChange] =
      ([("a.txt", "abc")], ["SKIP a.txt (no content or patch provided)"]) ∧
    applySurgicalSpec surgicalOnlyChange.surgical_blocks "abc" = some "Zbc" := by
  decide

/-- Claim C2 (amended): for `action=modify`, `apply_changes` never reads
`surgical_blocks`; it applies a truthy `patch` first (falling back to a
truthy `content` when `git apply` fails), then a truthy `content`, and
otherwise skips the change. -/
theorem apply_changes_modify_priority (g : String → FileSys → Option FileSys)
    (fs : FileSys) (c : FileChange) (hm : c.action = "modify") :
    (applyOneChange g fs c = applyOneChange g fs { c with surgical_blocks := [] }) ∧
    (truthyStr c.patch = true → ∀ fs2, g (c.patch.getD "") fs = some fs2 →
      applyOneChange g fs c = (fs2, ["PATCH " ++ c.file])) ∧
    (truthyStr c.patch = true → g (c.patch.getD "") fs = none →
      truthyStr c.content = true →
      applyOneChange g fs c =
        (fs.write c.file (c.content.getD ""),
          ["MODIFY " ++ c.file ++ " (patch failed, used full content)"])) ∧
    (truthyStr c.patch = false → truthyStr c.content = true →
      applyOneChange g fs c =
        (fs.write c.file (c.content.getD ""), ["MODIFY " ++ c.file])) ∧
    (truthyStr c.patch = false → truthyStr c.content = false →
      applyOneChange g fs c =
        (fs, ["SKIP " ++ c.file ++ " (no content or patch provided)"])) := by
  refine ⟨?_, ?_, ?_, ?_, ?_⟩
  · unfold applyOneChange
    simp [hm]
  · intro hp fs2 hg
    unfold applyOneChange
    simp [hm, hp, hg]
  · intro hp hg hc
    unfold applyOneChange
    simp [hm, hp, hg, hc]
  · intro hp hc
    unfold applyOneChange
    simp [hm, hp, hc]
  · intro hp hc
    unfold applyOneChange
    simp [hm, hp, hc]

/-- Claim C2 witness: the amended theorem evaluated on the surgical-only
change. -/
theorem apply_changes_modify_priority_witness :
    applyOneChange (fun _ _ => none) [("a.txt", "abc")] surgicalOnlyChange =
      ([("a.txt", "abc")], ["SKIP a.txt (no content or patch provided)"]) :=
  (apply_changes_modify_priority (fun _ _ => none) [("a.txt", "abc")]
    surgicalOnlyChange rfl).2.2.2.2 rfl rfl

/-- Claim C3: whatever the outcome of every stage and of the history
writer, one run performs exactly one `record` call and always reaches
`cleanup` — both sit in the `finally` block of `Controller.run`. -/
theorem run_records_once_and_cleans_up (p : RunParams) (env : RunEnv) :
    (Controller_run p env).recordCalls = 1 ∧
    (Controller_run p env).cleanupCalled = true := by
  unfold Controller_run
  rcases runBody p env with ⟨res, tr⟩
  rcases res with ⟨ex, r⟩ | r
  · cases ex <;>
      exact ⟨(finalizeRun_bookkeeping env _ tr).1, (finalizeRun_bookkeeping env _ tr).2.1⟩
  · exact ⟨(finalizeRun_bookkeeping env r tr).1, (finalizeRun_bookkeeping env r tr).2.1⟩

/-- Claim C4 (counterexample): with allow-list entry `git`, the command
`gitx push` is spawned (no violation), although its leading token sequence
does not extend the entry — the allow check is a plain string-prefix test
on the stripped command. -/
theorem allowlist_token_extension_counterexample :
    execute ["git"] [] spawnEcho "gitx push" =
      .ran { command := "gitx push", stdout := "", stderr := "", returncode := 0 } ∧
    tokenSeqAllowed ["git"] "gitx push" = false := by
  decide

/-- Claim C4 (amended): for a command passing the deny check,
`ToolExecutor.execute` raises `ToolViolation` if and only if no allow-list
entry is a string prefix of the stripped command; the violation outcome is
independent of the spawn oracle (no process is spawned), and an allowed
command is spawned. -/
theorem execute_allow_check_stringwise (allowed blocked : List String)
    (spawn : String → ToolResult) (cmd : String)
    (hdeny : ∀ pat ∈ blocked, strContains cmd pat = false) :
    (execute allowed blocked spawn cmd = .violation ("Command not allowed: " ++ cmd) ↔
      is_allowed allowed cmd = false) ∧
    (is_allowed allowed cmd = false →
      ∀ spawn2, execute allowed blocked spawn2 cmd =
        .violation ("Command not allowed: " ++ cmd)) ∧
    (is_allowed allowed cmd = true →
      execute allowed blocked spawn cmd = .ran (spawn cmd)) := by
  have hfind : blocked.find? (fun pat => strContains cmd pat) = none := by
    rw [List.find?_eq_none]
    intro x hx
    simp [hdeny x hx]
  constructor
  · unfold execute
    rw [hfind]
    by_cases hal : is_allowed allowed cmd <;> simp [hal]
  constructor
  · intro hal spawn2
    unfold execute
    rw [hfind, hal]
    simp
  · intro hal
    unfold execute
    rw [hfind, hal]
    simp

/-- Claim C4 witness: the amended theorem evaluated on a concrete denied
command. -/
theorem execute_allow_check_witness :
    execute ["git"] ["rm -rf"] spawnEcho "pytest -q" =
      .violation ("Command not allowed: " ++ "pytest -q") :=
  ((execute_allow_check_stringwise ["git"] ["rm -rf"] spawnEcho "pytest -q"
    (by decide)).1).mpr (by decide)

/-- Claim C5 (counterexample): protected path `src/core` flags
`src/core_extra/x` (plain string prefix), although it is not a
whole-component path prefix of it; the claim predicts an empty violation
list there. -/
theorem boundary_prefix_is_stringwise_counterexample :
    check ["src/core"] ["src/core_extra/x"] true = .ok ["src/core_extra/x"] ∧
    isComponentPathPfx "src/core" "src/core_extra/x" = false ∧
    isComponentPathPfx "src/core" "src/core/loader.py" = true :=
  ⟨rfl, by decide, by decide⟩

/-- Claim C5 (amended): `BoundaryEnforcer.check` collects one entry per
(file, protected-path) pair where the protected path is a plain string
prefix of the file, raises `BoundaryViolation` exactly when that list is
non-empty and `allow_core` is false, and otherwise returns the list; a
file is in the list exactly when some protected path is a string prefix
of it. -/
theorem check_stringwise_characterization (protected_paths files : List String)
    (allow_core : Bool) :
    (check protected_paths files allow_core =
        .ok (violationsOf protected_paths files) ↔
      (allow_core = true ∨ violationsOf protected_paths files = [])) ∧
    ((∃ msg, check protected_paths files allow_core = .error msg) ↔
      (violationsOf protected_paths files ≠ [] ∧ allow_core = false)) ∧
    (∀ f, f ∈ violationsOf protected_paths files ↔
      f ∈ files ∧ ∃ pp ∈ protected_paths, strStartsWith f pp = true) := by
  refine ⟨?_, ?_, mem_violationsOf protected_paths files⟩ <;>
    unfold check <;>
    rcases hv : violationsOf protected_paths files with _ | ⟨v, vs⟩ <;>
    cases allow_core <;> simp

/-- Claim C5 witness: the characterization applied to a concrete
protected-path configuration. -/
theorem check_stringwise_witness :
    check ["src/core"] ["src/core/loader.py"] true =
      .ok (violationsOf ["src/core"] ["src/core/loader.py"]) :=
  ((check_stringwise_characterization ["src/core"] ["src/core/loader.py"] true).1).mpr
    (Or.inl rfl)

/-- Claim C6: the fix loop executes the test command at most
`max_fix_attempts` times and invokes the debugger at most
`max_fix_attempts` times; with two attempts and both test runs failing,
exactly two test runs and one debugger call happen — none after the second
test run. -/
theorem fix_loop_bounded_invocations :
    (∀ (max_fix_attempts : Nat) (test retry : Nat → Bool),
      (run_fix_loop max_fix_attempts test retry).2.1 ≤ max_fix_attempts ∧
      (run_fix_loop max_fix_attempts test retry).2.2 ≤ max_fix_attempts) ∧
    run_fix_loop 2 (fun _ => false) (fun _ => true) = (false, 2, 1) := by
  constructor
  · intro m test retry
    have := fixLoopGo_counter_bounds test retry m 1 0 0
    unfold run_fix_loop
    omega
  · decide

/-- Claim C7 (counterexample): a plan whose single `modify` step touches
three files passes the pydantic validation — the two-file cap is a prompt
rule only, not a schema check. -/
theorem plan_two_file_cap_not_validated :
    validExecutionPlan threeFilePlan = true ∧
      ¬ modifiedFilesCount threeFilePlan ≤ 2 := by
  decide

/-- Claim C7 (amended): schema validation does guarantee the other half of
the claim: every step of a validated plan has a non-empty `files` list
(pydantic `min_length=1`). -/
theorem valid_plan_steps_files_nonempty (pl : ExecutionPlan)
    (h : validExecutionPlan pl = true) : ∀ s ∈ pl.steps, s.files ≠ [] := by
  intro s hs
  unfold validExecutionPlan at h
  simp only [Bool.and_eq_true, List.all_eq_true] at h
  have hv := h.1.1 s hs
  unfold validPlanStep at hv
  simp only [Bool.and_eq_true, decide_eq_true_eq] at hv
  intro hnil
  rw [hnil] at hv
  simp at hv

/-- Claim C7 witness: the amended theorem evaluated on the three-file
plan. -/
theorem valid_plan_steps_files_nonempty_witness :
    validExecutionPlan threeFilePlan = true ∧
      ∀ s ∈ threeFilePlan.steps, s.files ≠ [] :=
  ⟨by decide, valid_plan_steps_files_nonempty threeFilePlan (by decide)⟩

/-- Claim C8: with `auto_approve = true` (forced on for every parallel
worker) every `_confirm` gate returns approval, and no run returns
terminal status `security_blocked` or `pr_cancelled` — a `block` verdict
is always overridden. -/
theorem auto_approve_never_blocked_or_cancelled (p : RunParams)
    (hauto : p.auto_approve = true) :
    (∀ s, confirm p s = true) ∧
    ∀ env r, (Controller_run p env).runResult = .ok r →
      r.status ≠ "security_blocked" ∧ r.status ≠ "pr_cancelled" := by
  refine ⟨fun s => by simp [confirm, hauto], ?_⟩
  intro env r h
  unfold Controller_run at h
  rcases hb : runBody p env with ⟨res, tr⟩
  rw [hb] at h
  rcases res with ⟨ex, r1⟩ | r1
  · cases ex <;> dsimp only at h <;>
      (have he := finalizeRun_runResult_ok env _ tr r h; rw [he]) <;>
      refine ⟨?_, ?_⟩ <;> simp
  · dsimp only at h
    have he := finalizeRun_runResult_ok env r1 tr r h
    subst he
    have hst := runBody_ok_status p env r tr hauto hb
    rcases hst with h1 | h1 | h1 | h1 | h1 <;> rw [h1] <;> refine ⟨?_, ?_⟩ <;> simp

/-- Claim C8 witness: an auto-approved run whose fix loop fails and whose
security verdict is `block` still ends `pr_created`. -/
theorem auto_approve_witness :
    (Controller_run workerRunParams workerRunEnv).runResult =
      .ok workerRunExpected ∧
    workerRunEnv.securityE = .ok { verdict := some "block" } ∧
    workerRunExpected.status ≠ "security_blocked" ∧
    workerRunExpected.status ≠ "pr_cancelled" := by
  have h : (Controller_run workerRunParams workerRunEnv).runResult =
      .ok workerRunExpected := rfl
  have h2 := (auto_approve_never_blocked_or_cancelled workerRunParams rfl).2
    workerRunEnv workerRunExpected h
  exact ⟨h, rfl, h2.1, h2.2⟩

/-- Claim C9: `check_plan` returns a plan whose `files_likely_affected`
list is the original list extended in place with the files of every step —
different from the original whenever some step names a file — and the
implementer context file list the controller later gathers is exactly
that extended list. -/
theorem check_plan_extends_plan_in_place (prot : List String)
    (pl : ExecutionPlan) (ac : Bool) :
    ((check_plan prot pl ac).2.files_likely_affected =
      pl.files_likely_affected ++ pl.steps.flatMap PlanStep.files) ∧
    (pl.steps.flatMap PlanStep.files ≠ [] →
      (check_plan prot pl ac).2.files_likely_affected ≠
        pl.files_likely_affected) ∧
    (∀ p env po l, env.plannerE = .ok po →
      (Controller_run p env).trace.implFiles = some l →
      l = po.plan.files_likely_affected ++
        po.plan.steps.flatMap PlanStep.files) := by
  refine ⟨rfl, ?_, ?_⟩
  · intro hne heq
    rw [check_plan] at heq
    have hlen := congrArg List.length heq
    simp only [List.length_append] at hlen
    have : (pl.steps.flatMap PlanStep.files).length = 0 := by omega
    exact hne (List.length_eq_zero.mp this)
  · intro p env po l hpo h
    rw [Controller_run_trace] at h
    have := runBody_implFiles p env po l hpo h
    rw [this, check_plan]

/-- Claim C9 witness: the in-place extension evaluated on the three-file
plan. -/
theorem check_plan_extends_witness :
    (check_plan ["src/core"] threeFilePlan true).2.files_likely_affected =
      ["a.py", "b.py", "c.py", "a.py", "b.py", "c.py"] ∧
    (check_plan ["src/core"] threeFilePlan true).2.files_likely_affected ≠
      threeFilePlan.files_likely_affected := by
  have h := check_plan_extends_plan_in_place ["src/core"] threeFilePlan true
  exact ⟨by decide, h.2.1 (by decide)⟩

/-- Claim C10 (counterexample): `TaskHistory.record` raises when the log
directory creation fails — `self.log_dir.mkdir(...)` sits before the
`try`, so the claim that `record` never raises for any input is false. -/
theorem record_raises_on_mkdir_failure_counterexample :
    record (.error "PermissionError: mkdir denied") (.ok ()) plainRunResult =
      .error "PermissionError: mkdir denied" := rfl

/-- Claim C10 (amended): when the directory creation succeeds, `record`
never raises: a file-write failure is caught and only drops persistence,
and `Controller.run` still returns its result. -/
theorem record_catches_only_write_failures (w : Except String Unit)
    (r : RunResult) :
    record (.ok ()) w r = .ok (mkHistoryEntry r, exceptIsOkB w) ∧
    (∀ p env, env.mkdirE = .ok () →
      exceptIsOkB (Controller_run p env).runResult = true) := by
  constructor
  · cases w <;> simp [record, exceptIsOkB]
  · intro p env hmk
    unfold Controller_run
    rcases hb : runBody p env with ⟨res, tr⟩
    rcases res with ⟨ex, r1⟩ | r1
    · cases ex <;> rw [finalizeRun_ok_of_mkdir_ok env _ tr hmk] <;> rfl
    · rw [finalizeRun_ok_of_mkdir_ok env r1 tr hmk]
      rfl

/-- Claim C10 witness: the amended theorem evaluated on a failing write
and on a concrete run environment. -/
theorem record_catches_only_write_failures_witness :
    record (.ok ()) (.error "disk full") plainRunResult =
      .ok (mkHistoryEntry plainRunResult, false) ∧
    exceptIsOkB (Controller_run workerRunParams workerRunEnv).runResult = true :=
  ⟨(record_catches_only_write_failures (.error "disk full") plainRunResult).1,
    (record_catches_only_write_failures (.ok ()) plainRunResult).2
      workerRunParams workerRunEnv rfl⟩

end Glitchlab
